import Mathlib

/-!
Shallow embedding of the better-auth passkey plugin
(`packages/better-auth/src/plugins/passkey`): the challenge-cookie codec,
the two option-issuing endpoints and the two verify endpoints, together
with theorems about the behaviour the specification describes.

External collaborators (the WebAuthn verification library, the data
adapter, the session issuer) are modelled as explicit parameters; the
branching logic of the four endpoint handlers is translated line by line
from the source.
-/

namespace BetterAuthPasskey

/-- Configuration accepted by the `passkey` plugin factory
(`PasskeyOptions` in the source). `origin = none` models an absent /
null origin; `webAuthnChallengeCookie = none` models an absent
`advanced.webAuthnChallengeCookie`. -/
structure PasskeyOptions where
  rpID : String
  rpName : String
  origin : Option String
  webAuthnChallengeCookie : Option String
deriving DecidableEq

/-- The options after the plugin factory resolves defaults: in
development the effective `rpID` is forced to "localhost", and the
challenge cookie name defaults to "better-auth-passkey". Mirrors the
`opts` value built at the top of `passkey(options)`. -/
structure ResolvedOptions where
  rpID : String
  rpName : String
  origin : Option String
  webAuthnChallengeCookie : String
deriving DecidableEq

/-- Mirrors the construction of `opts` in `passkey(options)`:
`rpID` is "localhost" when `NODE_ENV === "development"`, and the cookie
name falls back to the default. -/
def resolveOptions (development : Bool) (o : PasskeyOptions) : ResolvedOptions :=
  { rpID := if development then "localhost" else o.rpID
    rpName := o.rpName
    origin := o.origin
    webAuthnChallengeCookie := o.webAuthnChallengeCookie.getD "better-auth-passkey" }

/-- The cookie max-age used for the sealed challenge: 60 * 60 * 24
seconds (24 hours), `webAuthnChallengeCookieExpiration` in the source. -/
def webAuthnChallengeCookieExpiration : Nat := 60 * 60 * 24

/-- JavaScript `a || b` on strings: the empty string is falsy. -/
def jsOr (a b : String) : String := if a = "" then b else a

/-- A user identity as it appears in `session.user` and in the cookie
payload's `userData` field: `{id, email}`. -/
structure UserData where
  id : String
  email : String
deriving DecidableEq

/-- The challenge-cookie payload (`WebAuthnCookieType` in the source):
the expected challenge, the subject user, and an optional post-auth
redirect target. -/
structure WebAuthnCookieType where
  expectedChallenge : String
  userData : UserData
  callbackURL : Option String
deriving DecidableEq

/-- Modelled from the spec: a deterministic keyed checksum standing in
for the HMAC used by better-auth's signed-cookie helpers
(`setSignedCookie` / `getSignedCookie`), whose implementation is outside
the analysed sources. Only the properties the spec states matter here:
the MAC is a pure function of the server secret and the payload. -/
def macBase (s : String) : Nat := s.data.foldl (fun h c => h * 131 + c.toNat) 7

/-- Modelled from the spec: the MAC of a challenge-cookie payload under
a server secret. -/
def cookieMac (secret : String) (d : WebAuthnCookieType) : Nat :=
  macBase (secret ++ "|" ++ d.expectedChallenge ++ "|" ++ d.userData.id ++ "|"
    ++ d.userData.email ++ "|" ++ d.callbackURL.getD "-")

/-- Modelled from the spec: the sealed token carried by the client — a
signed, encoded `ChallengeState` with its issue time (the cookie's
max-age clock starts there). -/
structure SealedToken where
  payload : WebAuthnCookieType
  mac : Nat
  issuedAt : Nat
deriving DecidableEq

/-- Modelled from the spec: `seal(state) -> token`, the signing half of
the ChallengeCodec (the `setSignedCookie` call both option-issuing
endpoints perform). -/
def sealChallenge (secret : String) (issuedAt : Nat) (state : WebAuthnCookieType) : SealedToken :=
  { payload := state, mac := cookieMac secret state, issuedAt := issuedAt }

/-- Modelled from the spec: `unseal(token) -> state | fails`, the
verifying half of the ChallengeCodec (the `getSignedCookie` call both
verify endpoints perform, together with the 24h TTL). A token whose MAC
does not verify and a token whose TTL has elapsed fail identically:
both return `none`. -/
def unsealChallenge (secret : String) (now : Nat) (tok : SealedToken) : Option WebAuthnCookieType :=
  if tok.mac = cookieMac secret tok.payload
      ∧ now ≤ tok.issuedAt + webAuthnChallengeCookieExpiration
  then some tok.payload else none

/-- A persisted passkey credential (`Passkey` in the source).
`createdAt` is modelled as a natural-number timestamp and the public key
as its stored (encoded) string. -/
structure Passkey where
  id : String
  publicKey : String
  userId : String
  webauthnUserID : String
  counter : Nat
  deviceType : String
  backedUp : Bool
  transports : Option String
  createdAt : Nat
deriving DecidableEq

/-- An allow/exclude-list entry handed to the WebAuthn library:
credential id plus optional transport hints
(`{id, transports: passkey.transports?.split(",")}` in the source). -/
structure AllowCredential where
  id : String
  transports : Option (List String)
deriving DecidableEq

/-- Mirrors `{id: passkey.id, transports: passkey.transports?.split(",")}`. -/
def toAllowCredential (p : Passkey) : AllowCredential :=
  { id := p.id, transports := p.transports.map (fun s => s.splitOn ",") }

/-- Stand-in for Node's `Buffer.from(bytes).toString("base64")`: an
injective byte-list-to-text encoding; the exact alphabet is immaterial
to every claim. -/
def base64Encode (bs : List Nat) : String :=
  String.intercalate "," (bs.map (fun b => toString b))

/-- Stand-in for `new Uint8Array(Buffer.from(s, "base64"))`, the inverse
direction of `base64Encode`. -/
def base64Decode (s : String) : List Nat :=
  (s.splitOn ",").filterMap (fun t => t.toNat?)

/-- The ceremony options returned by `/passkey/generate-register-options`
— the arguments the handler passes to the library's
`generateRegistrationOptions`, including the challenge the library
produced. -/
structure RegOptionsResult where
  rpID : String
  rpName : String
  userID : String
  userName : String
  excludeCredentials : List AllowCredential
  challenge : String
deriving DecidableEq

/-- Handler of `GET /passkey/generate-register-options`. The session
middleware guarantees an authenticated `sessionUser`; `store` is the
adapter's passkey table; `freshUserID` is the random per-registration
user handle and `challenge` the library-generated challenge, both
supplied externally; `now` drives the cookie clock. Returns the ceremony
options and the (cookie-name, sealed-token) pair the handler sets. -/
def generatePasskeyRegistrationOptions (development : Bool) (o : PasskeyOptions)
    (secret : String) (sessionUser : UserData) (store : List Passkey)
    (freshUserID : String) (challenge : String) (now : Nat) :
    RegOptionsResult × (String × SealedToken) :=
  let opts := resolveOptions development o
  let userPasskeys := store.filter (fun p => p.userId == sessionUser.id)
  let result : RegOptionsResult :=
    { rpID := opts.rpID
      rpName := opts.rpName
      userID := freshUserID
      userName := jsOr sessionUser.email sessionUser.id
      excludeCredentials := userPasskeys.map toAllowCredential
      challenge := challenge }
  let data : WebAuthnCookieType :=
    { expectedChallenge := challenge
      userData := { id := sessionUser.id, email := jsOr sessionUser.email sessionUser.id }
      callbackURL := none }
  (result, (opts.webAuthnChallengeCookie, sealChallenge secret now data))

/-- Optional body of `POST /passkey/generate-authenticate-options`:
`{email?, callbackURL?}`. -/
structure AuthOptsBody where
  email : Option String
  callbackURL : Option String
deriving DecidableEq

/-- The ceremony options returned by
`/passkey/generate-authenticate-options` — the arguments the handler
passes to the library's `generateAuthenticationOptions`. The allow-list
is absent (`none`) when the handler spreads `{}`. -/
structure AuthOptionsResult where
  rpID : String
  allowCredentials : Option (List AllowCredential)
  challenge : String
deriving DecidableEq

/-- Handler of `POST /passkey/generate-authenticate-options`. `session`
is the result of `getSessionFromCtx` (no middleware: may be `none`),
`body` the optional request body. Mirrors the source: passkeys are
looked up only when a session exists, and `allowCredentials` is included
only when that lookup is non-empty; the body's `email` is never read. -/
def generatePasskeyAuthenticationOptions (development : Bool) (o : PasskeyOptions)
    (secret : String) (store : List Passkey) (session : Option UserData)
    (body : Option AuthOptsBody) (challenge : String) (now : Nat) :
    AuthOptionsResult × (String × SealedToken) :=
  let opts := resolveOptions development o
  let userPasskeys : List Passkey :=
    match session with
    | some u => store.filter (fun p => p.userId == u.id)
    | none => []
  let result : AuthOptionsResult :=
    { rpID := opts.rpID
      allowCredentials :=
        if userPasskeys.isEmpty then none else some (userPasskeys.map toAllowCredential)
      challenge := challenge }
  let data : WebAuthnCookieType :=
    { expectedChallenge := challenge
      userData :=
        { email :=
            match session with
            | some u => jsOr u.email u.id
            | none => ""
          id :=
            match session with
            | some u => u.id
            | none => "" }
      callbackURL := body.bind (fun b => b.callbackURL) }
  (result, (opts.webAuthnChallengeCookie, sealChallenge secret now data))

/-- The part of the client's registration ceremony response the handler
itself inspects: `response.response.transports`, read without a guard
(`resp.response.transports.join(",")`). `none` models an absent
`transports` field, on which the JavaScript access throws. The rest of
the response is seen only by the verification library. -/
structure RegCeremonyResponse where
  transports : Option (List String)
deriving DecidableEq

/-- The `registrationInfo` the verification library extracts from a
verified registration response. -/
structure RegistrationInfo where
  credentialID : String
  credentialPublicKey : List Nat
  counter : Nat
  credentialDeviceType : String
  credentialBackedUp : Bool
deriving DecidableEq

/-- Outcome of `verifyRegistrationResponse`: a normal return carrying
`{verified, registrationInfo}`, or a thrown exception (`err`), which the
handler's try/catch maps to a 400. -/
inductive RegVerification where
  | ok (verified : Bool) (registrationInfo : Option RegistrationInfo)
  | err
deriving DecidableEq

/-- Observable outcome of `POST /passkey/verify-registration`:
the created credential with status 200, a 400 with an optional message
body, or the thrown `APIError("UNAUTHORIZED")`. -/
inductive RegResponse where
  | created (p : Passkey)
  | badRequest (message : Option String)
  | unauthorizedErr (message : String)
deriving DecidableEq

/-- HTTP status of a `RegResponse`. -/
def regStatusOf : RegResponse → Nat
  | .created _ => 200
  | .badRequest _ => 400
  | .unauthorizedErr _ => 401

/-- The credential a `RegResponse` reports as created, if any. -/
def createdOf : RegResponse → Option Passkey
  | .created p => some p
  | _ => none

/-- Handler of `POST /passkey/verify-registration`, translated branch by
branch from the source. `cookies` is the request's cookie jar (name →
sealed token), `oracle` the library's `verifyRegistrationResponse`
applied to `(response, expectedChallenge, expectedOrigin,
expectedRPID)`, `sessionUserId` the authenticated caller (session
middleware), `freshUserID` the random `webauthnUserID`. Note the
handler passes the raw `options.rpID` (not the resolved `opts.rpID`) as
`expectedRPID`, exactly as the source does. Returns the response and
the passkey table after the request. -/
def verifyPasskeyRegistration (development : Bool) (o : PasskeyOptions) (secret : String)
    (headerOrigin : Option String) (sessionUserId : String) (resp : RegCeremonyResponse)
    (cookies : String → Option SealedToken) (store : List Passkey)
    (oracle : RegCeremonyResponse → String → String → String → RegVerification)
    (freshUserID : String) (now : Nat) : RegResponse × List Passkey :=
  let opts := resolveOptions development o
  let origin := jsOr (o.origin.getD "") (headerOrigin.getD "")
  if origin = "" then (.badRequest none, store)
  else
    match (cookies opts.webAuthnChallengeCookie).bind (unsealChallenge secret now) with
    | none => (.badRequest none, store)
    | some st =>
      if st.userData.id ≠ sessionUserId then
        (.unauthorizedErr "You are not authorized to register this passkey", store)
      else
        match oracle resp st.expectedChallenge origin o.rpID with
        | .err => (.badRequest (some "Registration failed"), store)
        | .ok verified info =>
          match verified, info with
          | true, some ri =>
            match resp.transports with
            | none => (.badRequest (some "Registration failed"), store)
            | some ts =>
              let newPasskey : Passkey :=
                { userId := st.userData.id
                  webauthnUserID := freshUserID
                  id := ri.credentialID
                  publicKey := base64Encode ri.credentialPublicKey
                  counter := ri.counter
                  deviceType := ri.credentialDeviceType
                  transports := some (String.intercalate "," ts)
                  backedUp := ri.credentialBackedUp
                  createdAt := now }
              (.created newPasskey, store ++ [newPasskey])
          | _, _ => (.badRequest none, store)

/-- The part of the client's authentication ceremony response this model
needs: the claimed credential id (`resp.id`, used for the store lookup)
and the signature counter embedded in the response's authenticator data
(read only by the verification library, which reports it back as
`newCounter`). -/
structure AuthCeremonyResponse where
  id : String
  counter : Nat
deriving DecidableEq

/-- The stored-authenticator record the handler passes to
`verifyAuthenticationResponse`: credential id, decoded public key,
stored counter and transport hints. -/
structure AuthenticatorRecord where
  credentialID : String
  credentialPublicKey : List Nat
  counter : Nat
  transports : Option (List String)
deriving DecidableEq

/-- Mirrors the `authenticator:` argument built from the found passkey. -/
def authenticatorOf (p : Passkey) : AuthenticatorRecord :=
  { credentialID := p.id
    credentialPublicKey := base64Decode p.publicKey
    counter := p.counter
    transports := p.transports.map (fun s => s.splitOn ",") }

/-- Outcome of `verifyAuthenticationResponse`: a normal return carrying
`{verified, authenticationInfo.newCounter}`, or a thrown exception
(`err`), which the handler's try/catch maps to a 400. -/
inductive AuthVerification where
  | ok (verified : Bool) (newCounter : Nat)
  | err
deriving DecidableEq

/-- A session created by `internalAdapter.createSession(userId, req)`. -/
structure Session where
  id : String
  userId : String
deriving DecidableEq

/-- Observable outcome of `POST /passkey/verify-authentication`:
`{session}` (200), `{url, redirect: true, session}` (200), a 400 with an
optional message body, or a 401 with a message body. -/
inductive AuthResponse where
  | okSession (s : Session)
  | okRedirect (url : String) (s : Session)
  | badRequest (message : Option String)
  | unauthorizedRes (message : String)
deriving DecidableEq

/-- HTTP status of an `AuthResponse`. -/
def authStatusOf : AuthResponse → Nat
  | .okSession _ => 200
  | .okRedirect _ _ => 200
  | .badRequest _ => 400
  | .unauthorizedRes _ => 401

/-- The session an `AuthResponse` carries, if any — failures issue none. -/
def sessionOf : AuthResponse → Option Session
  | .okSession s => some s
  | .okRedirect _ s => some s
  | _ => none

/-- The adapter's `update` on the passkey model with `where id = cid`:
sets `counter := c` on every matching row. -/
def updateCounter (store : List Passkey) (cid : String) (c : Nat) : List Passkey :=
  store.map (fun p => if p.id == cid then { p with counter := c } else p)

/-- Handler of `POST /passkey/verify-authentication`, translated branch
by branch from the source. `oracle` is the library's
`verifyAuthenticationResponse` applied to `(response, expectedChallenge,
expectedOrigin, expectedRPID, authenticator)`; `newSessionId` the id of
the session `internalAdapter.createSession` would mint. This handler
uses the resolved `opts.rpID` as `expectedRPID`. Returns the response
and the passkey table after the request. -/
def verifyPasskeyAuthentication (development : Bool) (o : PasskeyOptions) (secret : String)
    (headerOrigin : Option String) (resp : AuthCeremonyResponse)
    (cookies : String → Option SealedToken) (store : List Passkey)
    (oracle : AuthCeremonyResponse → String → String → String → AuthenticatorRecord →
      AuthVerification)
    (newSessionId : String) (now : Nat) : AuthResponse × List Passkey :=
  let opts := resolveOptions development o
  let origin := jsOr (o.origin.getD "") (headerOrigin.getD "")
  if origin = "" then (.badRequest none, store)
  else
    match (cookies opts.webAuthnChallengeCookie).bind (unsealChallenge secret now) with
    | none => (.badRequest none, store)
    | some st =>
      match store.find? (fun p => p.id == resp.id) with
      | none => (.unauthorizedRes "Passkey not found", store)
      | some passkey =>
        match oracle resp st.expectedChallenge origin opts.rpID (authenticatorOf passkey) with
        | .err => (.badRequest (some "Authentication failed"), store)
        | .ok false _ => (.unauthorizedRes "verification failed", store)
        | .ok true newCounter =>
          let store2 := updateCounter store passkey.id newCounter
          let s : Session := { id := newSessionId, userId := passkey.userId }
          let cb := st.callbackURL.getD ""
          if cb = "" then (.okSession s, store2) else (.okRedirect cb s, store2)

/-- A cookie jar holding exactly one cookie — the shape a client
replaying a previously issued challenge cookie presents. -/
def singletonJar (nm : String) (tok : SealedToken) : String → Option SealedToken :=
  fun n => if n = nm then some tok else none

/-- The counter contract the spec assigns to the verification oracle
(§4.3e: the oracle, not the flow, compares the response counter with the
stored one): whenever the oracle reports `verified` with a new counter,
that counter is the one carried by the response and is strictly greater
than the stored authenticator counter. -/
def OracleCounterContract
    (oracle : AuthCeremonyResponse → String → String → String → AuthenticatorRecord →
      AuthVerification) : Prop :=
  ∀ resp ch origin rp rec n,
    oracle resp ch origin rp rec = .ok true n → n = resp.counter ∧ rec.counter < n

/-- A sample challenge state used by concrete instantiations. -/
def exData : WebAuthnCookieType :=
  { expectedChallenge := "c", userData := { id := "u1", email := "e" }, callbackURL := none }

/-- A sample plugin configuration used by concrete instantiations. -/
def exO : PasskeyOptions :=
  { rpID := "ex.com", rpName := "Ex", origin := some "https://ex.com",
    webAuthnChallengeCookie := none }

/-- A cookie jar holding the challenge cookie issued for `exData` under
secret "s" at time 0, under the default cookie name. -/
def exJar : String → Option SealedToken :=
  singletonJar "better-auth-passkey" (sealChallenge "s" 0 exData)

/-- A sample `registrationInfo` as extracted by the library. -/
def exRi : RegistrationInfo :=
  { credentialID := "cred", credentialPublicKey := [1, 2], counter := 5,
    credentialDeviceType := "singleDevice", credentialBackedUp := false }

/-- A sample stored passkey credential. -/
def exPk : Passkey :=
  { id := "cred", publicKey := "1,2", userId := "u1", webauthnUserID := "w", counter := 5,
    deviceType := "singleDevice", backedUp := false, transports := some "usb", createdAt := 0 }

/-- A concrete authentication oracle obeying the spec's counter
contract: it verifies exactly when the response's counter strictly
exceeds the stored one (reporting the response counter as the new
counter) and otherwise throws, the way the WebAuthn library signals a
cloned credential. -/
def counterCheckingOracle :
    AuthCeremonyResponse → String → String → String → AuthenticatorRecord → AuthVerification :=
  fun resp _ _ _ rec => if rec.counter < resp.counter then .ok true resp.counter else .err

/-- The adapter's `update` keeps the row found by `find?` and sets
exactly its counter: if `pk` is the first row matching credential id
`cid`, then after `updateCounter store cid n` the first row matching
`cid` is `pk` with its counter set to `n`. -/
theorem updateCounter_find? (cid : String) (n : Nat) :
    ∀ (store : List Passkey) (pk : Passkey),
      store.find? (fun p => p.id == cid) = some pk →
      (updateCounter store cid n).find? (fun p => p.id == cid)
        = some { pk with counter := n } := by
  intro store
  induction store with
  | nil => intro pk h; simp [List.find?] at h
  | cons hd tl ih =>
    intro pk h
    by_cases hb : (hd.id == cid) = true
    · rw [List.find?_cons_of_pos (p := fun q : Passkey => q.id == cid) (a := hd) tl hb] at h
      obtain rfl : hd = pk := by injection h
      have hb' : (({ hd with counter := n } : Passkey).id == cid) = true := by simpa using hb
      simp only [updateCounter, List.map_cons]
      rw [if_pos hb]
      exact List.find?_cons_of_pos (p := fun q : Passkey => q.id == cid)
        (a := { hd with counter := n }) _ hb'
    · rw [List.find?_cons_of_neg (p := fun q : Passkey => q.id == cid) (a := hd) tl hb] at h
      simp only [updateCounter, List.map_cons]
      rw [if_neg hb]
      rw [List.find?_cons_of_neg (p := fun q : Passkey => q.id == cid) (a := hd) _ hb]
      exact ih pk h

/-- C6: for every valid challenge state, unsealing the token produced by
sealing that state with the same server secret, within the TTL, yields a
state equal to the original: `unseal(seal(state)) == state`. -/
theorem c6_unseal_seal_roundtrip (secret : String) (state : WebAuthnCookieType)
    (issuedAt now : Nat) (h : now ≤ issuedAt + webAuthnChallengeCookieExpiration) :
    unsealChallenge secret now (sealChallenge secret issuedAt state) = some state := by
  simp [unsealChallenge, sealChallenge, h]

/-- Witness for C6 at a concrete state, secret and pair of times. -/
theorem c6_unseal_seal_roundtrip_witness :
    unsealChallenge "s" 10 (sealChallenge "s" 0 exData) = some exData :=
  c6_unseal_seal_roundtrip "s" exData 0 10 (by decide)

/-- C7: a token whose MAC does not verify and a token whose TTL has
elapsed fail identically — `unseal` returns `none` for both — and both
verify endpoints map any such failed unseal to the single observable
outcome: a 400 with a null body, indistinguishable to the client. -/
theorem c7_expired_equals_tampered :
    (∀ (secret : String) (now : Nat) (tok : SealedToken),
      tok.mac ≠ cookieMac secret tok.payload → unsealChallenge secret now tok = none)
    ∧ (∀ (secret : String) (now : Nat) (tok : SealedToken),
      tok.issuedAt + webAuthnChallengeCookieExpiration < now →
        unsealChallenge secret now tok = none)
    ∧ (∀ (development : Bool) (o : PasskeyOptions) (secret : String)
        (headerOrigin : Option String) (resp : AuthCeremonyResponse)
        (cookies : String → Option SealedToken) (store : List Passkey)
        (oracle : AuthCeremonyResponse → String → String → String → AuthenticatorRecord →
          AuthVerification) (sid : String) (now : Nat),
      (cookies (resolveOptions development o).webAuthnChallengeCookie).bind
          (unsealChallenge secret now) = none →
        verifyPasskeyAuthentication development o secret headerOrigin resp cookies store
            oracle sid now
          = (.badRequest none, store))
    ∧ (∀ (development : Bool) (o : PasskeyOptions) (secret : String)
        (headerOrigin : Option String) (suid : String) (resp : RegCeremonyResponse)
        (cookies : String → Option SealedToken) (store : List Passkey)
        (oracle : RegCeremonyResponse → String → String → String → RegVerification)
        (fuid : String) (now : Nat),
      (cookies (resolveOptions development o).webAuthnChallengeCookie).bind
          (unsealChallenge secret now) = none →
        verifyPasskeyRegistration development o secret headerOrigin suid resp cookies store
            oracle fuid now
          = (.badRequest none, store)) := by
  refine ⟨?_, ?_, ?_, ?_⟩
  · intro secret now tok h
    have hc : ¬ (tok.mac = cookieMac secret tok.payload
        ∧ now ≤ tok.issuedAt + webAuthnChallengeCookieExpiration) := by
      intro hc; exact h hc.1
    simp only [unsealChallenge, if_neg hc]
  · intro secret now tok h
    have hc : ¬ (tok.mac = cookieMac secret tok.payload
        ∧ now ≤ tok.issuedAt + webAuthnChallengeCookieExpiration) := by
      intro hc; omega
    simp only [unsealChallenge, if_neg hc]
  · intro development o secret headerOrigin resp cookies store oracle sid now h
    simp only [verifyPasskeyAuthentication, h]
    split <;> rfl
  · intro development o secret headerOrigin suid resp cookies store oracle fuid now h
    simp only [verifyPasskeyRegistration, h]
    split <;> rfl

/-- Witness for C7: a tampered token (wrong MAC) and an expired token
both unseal to `none`, and both verify endpoints answer a concrete
request carrying a failed-unseal cookie with the same 400/null outcome. -/
theorem c7_expired_equals_tampered_witness :
    unsealChallenge "s" 0
        { payload := exData, mac := cookieMac "s" exData + 1, issuedAt := 0 } = none
    ∧ unsealChallenge "s" 90000 { payload := exData, mac := cookieMac "s" exData, issuedAt := 0 }
        = none
    ∧ verifyPasskeyAuthentication false exO "s" none { id := "cred", counter := 9 }
        (fun _ => none) [exPk] counterCheckingOracle "sess" 0
        = (.badRequest none, [exPk])
    ∧ verifyPasskeyRegistration false exO "s" none "u1" { transports := some ["usb"] }
        (fun _ => none) [] (fun _ _ _ _ => .ok true (some exRi)) "w" 0
        = (.badRequest none, []) :=
  ⟨c7_expired_equals_tampered.1 "s" 0 _ (by decide),
   c7_expired_equals_tampered.2.1 "s" 90000 _ (by decide),
   c7_expired_equals_tampered.2.2.1 false exO "s" none _ _ [exPk] counterCheckingOracle
     "sess" 0 rfl,
   c7_expired_equals_tampered.2.2.2 false exO "s" none "u1" _ _ [] _ "w" 0 rfl⟩

/-- C2: completing a registration whose unsealed challenge state names a
subject user different from the authenticated caller fails with the
UNAUTHORIZED error and leaves the credential store unchanged. -/
theorem c2_subject_mismatch_unauthorized (development : Bool) (o : PasskeyOptions)
    (secret : String) (headerOrigin : Option String) (sessionUserId : String)
    (resp : RegCeremonyResponse) (cookies : String → Option SealedToken)
    (store : List Passkey)
    (oracle : RegCeremonyResponse → String → String → String → RegVerification)
    (freshUserID : String) (now : Nat) (st : WebAuthnCookieType)
    (horigin : jsOr (o.origin.getD "") (headerOrigin.getD "") ≠ "")
    (hcookie : (cookies (resolveOptions development o).webAuthnChallengeCookie).bind
      (unsealChallenge secret now) = some st)
    (hmismatch : st.userData.id ≠ sessionUserId) :
    verifyPasskeyRegistration development o secret headerOrigin sessionUserId resp cookies
        store oracle freshUserID now
      = (.unauthorizedErr "You are not authorized to register this passkey", store) := by
  simp only [verifyPasskeyRegistration, hcookie, if_neg horigin, if_pos hmismatch]

/-- Witness for C2: a caller "u2" completing the registration sealed for
subject "u1" receives the UNAUTHORIZED error and the store stays empty. -/
theorem c2_subject_mismatch_unauthorized_witness :
    verifyPasskeyRegistration false exO "s" none "u2" { transports := some ["usb"] } exJar []
        (fun _ _ _ _ => .ok true (some exRi)) "w" 0
      = (.unauthorizedErr "You are not authorized to register this passkey", []) :=
  c2_subject_mismatch_unauthorized false exO "s" none "u2" _ exJar [] _ "w" 0 exData
    (by decide) (by decide) (by decide)

/-- C1: under the spec's oracle counter contract, a verify-authentication
request whose stored credential is found and verified has its stored
`counter` updated to the oracle-reported new counter, a strict increase;
and a replayed response whose reported counter is at most the stored one
fails (the 401 "verification failed" or the caught 400 "Authentication
failed" outcome, the flow's surface for `VERIFICATION_FAILED`) and
leaves the store unchanged. -/
theorem c1_counter_strictly_increases
    (oracle : AuthCeremonyResponse → String → String → String → AuthenticatorRecord →
      AuthVerification)
    (hc : OracleCounterContract oracle) :
    (∀ (development : Bool) (o : PasskeyOptions) (secret : String)
        (headerOrigin : Option String) (resp : AuthCeremonyResponse)
        (cookies : String → Option SealedToken) (store : List Passkey) (sid : String)
        (now : Nat) (st : WebAuthnCookieType) (pk : Passkey) (n : Nat),
      jsOr (o.origin.getD "") (headerOrigin.getD "") ≠ "" →
      (cookies (resolveOptions development o).webAuthnChallengeCookie).bind
        (unsealChallenge secret now) = some st →
      store.find? (fun p => p.id == resp.id) = some pk →
      oracle resp st.expectedChallenge (jsOr (o.origin.getD "") (headerOrigin.getD ""))
          (resolveOptions development o).rpID (authenticatorOf pk) = .ok true n →
      (verifyPasskeyAuthentication development o secret headerOrigin resp cookies store
            oracle sid now).2 = updateCounter store pk.id n
        ∧ (updateCounter store pk.id n).find? (fun p => p.id == resp.id)
            = some { pk with counter := n }
        ∧ pk.counter < n)
    ∧ (∀ (development : Bool) (o : PasskeyOptions) (secret : String)
        (headerOrigin : Option String) (resp : AuthCeremonyResponse)
        (cookies : String → Option SealedToken) (store : List Passkey) (sid : String)
        (now : Nat) (st : WebAuthnCookieType) (pk : Passkey),
      jsOr (o.origin.getD "") (headerOrigin.getD "") ≠ "" →
      (cookies (resolveOptions development o).webAuthnChallengeCookie).bind
        (unsealChallenge secret now) = some st →
      store.find? (fun p => p.id == resp.id) = some pk →
      resp.counter ≤ pk.counter →
      (verifyPasskeyAuthentication development o secret headerOrigin resp cookies store
            oracle sid now).2 = store
        ∧ ((verifyPasskeyAuthentication development o secret headerOrigin resp cookies store
              oracle sid now).1 = .unauthorizedRes "verification failed"
          ∨ (verifyPasskeyAuthentication development o secret headerOrigin resp cookies store
              oracle sid now).1 = .badRequest (some "Authentication failed"))) := by
  constructor
  · intro development o secret headerOrigin resp cookies store sid now st pk n h1 h2 h3 h4
    have hid : pk.id = resp.id := by simpa using List.find?_some h3
    have hcc := hc resp st.expectedChallenge
      (jsOr (o.origin.getD "") (headerOrigin.getD ""))
      (resolveOptions development o).rpID (authenticatorOf pk) n h4
    have hlt : pk.counter < n := by simpa [authenticatorOf] using hcc.2
    refine ⟨?_, ?_, hlt⟩
    · simp only [verifyPasskeyAuthentication, h2, h3, h4, if_neg h1]
      split <;> rfl
    · nth_rewrite 1 [hid]
      exact updateCounter_find? resp.id n store pk h3
  · intro development o secret headerOrigin resp cookies store sid now st pk h1 h2 h3 hle
    have horacle : ∀ m, oracle resp st.expectedChallenge
        (jsOr (o.origin.getD "") (headerOrigin.getD ""))
        (resolveOptions development o).rpID (authenticatorOf pk) ≠ .ok true m := by
      intro m hm
      have hcc := hc resp st.expectedChallenge
        (jsOr (o.origin.getD "") (headerOrigin.getD ""))
        (resolveOptions development o).rpID (authenticatorOf pk) m hm
      have h2' : m = resp.counter ∧ pk.counter < m := by
        simpa [authenticatorOf] using hcc
      omega
    cases ho : oracle resp st.expectedChallenge
        (jsOr (o.origin.getD "") (headerOrigin.getD ""))
        (resolveOptions development o).rpID (authenticatorOf pk) with
    | ok v m =>
      cases v with
      | true => exact absurd ho (horacle m)
      | false =>
        constructor
        · simp only [verifyPasskeyAuthentication, h2, h3, ho, if_neg h1]
        · left
          simp only [verifyPasskeyAuthentication, h2, h3, ho, if_neg h1]
    | err =>
      constructor
      · simp only [verifyPasskeyAuthentication, h2, h3, ho, if_neg h1]
      · right
        simp only [verifyPasskeyAuthentication, h2, h3, ho, if_neg h1]

/-- Witness for C1: against a stored counter of 5, a response reporting
9 is accepted and the stored counter becomes 9 (a strict increase); a
replayed response reporting 5 fails and leaves the store unchanged. -/
theorem c1_counter_strictly_increases_witness :
    (verifyPasskeyAuthentication false exO "s" none { id := "cred", counter := 9 } exJar
        [exPk] counterCheckingOracle "sess" 0).2 = updateCounter [exPk] "cred" 9
    ∧ (updateCounter [exPk] "cred" 9).find? (fun p => p.id == "cred")
        = some { exPk with counter := 9 }
    ∧ exPk.counter < 9
    ∧ (verifyPasskeyAuthentication false exO "s" none { id := "cred", counter := 5 } exJar
        [exPk] counterCheckingOracle "sess" 0).2 = [exPk]
    ∧ ((verifyPasskeyAuthentication false exO "s" none { id := "cred", counter := 5 } exJar
          [exPk] counterCheckingOracle "sess" 0).1 = .unauthorizedRes "verification failed"
      ∨ (verifyPasskeyAuthentication false exO "s" none { id := "cred", counter := 5 } exJar
          [exPk] counterCheckingOracle "sess" 0).1
          = .badRequest (some "Authentication failed")) := by
  have hc : OracleCounterContract counterCheckingOracle := by
    intro resp ch origin rp rec n h
    unfold counterCheckingOracle at h
    split at h
    · injection h with hv hn
      constructor
      · exact hn.symm
      · omega
    · exact absurd h (by simp)
  have hA := (c1_counter_strictly_increases counterCheckingOracle hc).1 false exO "s" none
    { id := "cred", counter := 9 } exJar [exPk] "sess" 0 exData exPk 9
    (by decide) (by decide) (by decide) (by decide)
  have hB := (c1_counter_strictly_increases counterCheckingOracle hc).2 false exO "s" none
    { id := "cred", counter := 5 } exJar [exPk] "sess" 0 exData exPk
    (by decide) (by decide) (by decide) (by decide)
  exact ⟨hA.1, hA.2.1, hA.2.2, hB.1, hB.2⟩

/-- C3: verify-authentication answers 401 when the claimed credential id
is not in the store and 401 when the oracle reports not-verified, 400
when the sealed challenge cookie is missing or fails to unseal, and
issues no session in any of those cases. -/
theorem c3_failure_statuses :
    (∀ (development : Bool) (o : PasskeyOptions) (secret : String)
        (headerOrigin : Option String) (resp : AuthCeremonyResponse)
        (cookies : String → Option SealedToken) (store : List Passkey)
        (oracle : AuthCeremonyResponse → String → String → String → AuthenticatorRecord →
          AuthVerification) (sid : String) (now : Nat),
      (cookies (resolveOptions development o).webAuthnChallengeCookie).bind
        (unsealChallenge secret now) = none →
      authStatusOf (verifyPasskeyAuthentication development o secret headerOrigin resp
          cookies store oracle sid now).1 = 400
        ∧ sessionOf (verifyPasskeyAuthentication development o secret headerOrigin resp
            cookies store oracle sid now).1 = none)
    ∧ (∀ (development : Bool) (o : PasskeyOptions) (secret : String)
        (headerOrigin : Option String) (resp : AuthCeremonyResponse)
        (cookies : String → Option SealedToken) (store : List Passkey)
        (oracle : AuthCeremonyResponse → String → String → String → AuthenticatorRecord →
          AuthVerification) (sid : String) (now : Nat) (st : WebAuthnCookieType),
      jsOr (o.origin.getD "") (headerOrigin.getD "") ≠ "" →
      (cookies (resolveOptions development o).webAuthnChallengeCookie).bind
        (unsealChallenge secret now) = some st →
      store.find? (fun p => p.id == resp.id) = none →
      (verifyPasskeyAuthentication development o secret headerOrigin resp cookies store
            oracle sid now).1 = .unauthorizedRes "Passkey not found"
        ∧ authStatusOf (verifyPasskeyAuthentication development o secret headerOrigin resp
            cookies store oracle sid now).1 = 401
        ∧ sessionOf (verifyPasskeyAuthentication development o secret headerOrigin resp
            cookies store oracle sid now).1 = none)
    ∧ (∀ (development : Bool) (o : PasskeyOptions) (secret : String)
        (headerOrigin : Option String) (resp : AuthCeremonyResponse)
        (cookies : String → Option SealedToken) (store : List Passkey)
        (oracle : AuthCeremonyResponse → String → String → String → AuthenticatorRecord →
          AuthVerification) (sid : String) (now : Nat) (st : WebAuthnCookieType)
        (pk : Passkey) (m : Nat),
      jsOr (o.origin.getD "") (headerOrigin.getD "") ≠ "" →
      (cookies (resolveOptions development o).webAuthnChallengeCookie).bind
        (unsealChallenge secret now) = some st →
      store.find? (fun p => p.id == resp.id) = some pk →
      oracle resp st.expectedChallenge (jsOr (o.origin.getD "") (headerOrigin.getD ""))
          (resolveOptions development o).rpID (authenticatorOf pk) = .ok false m →
      (verifyPasskeyAuthentication development o secret headerOrigin resp cookies store
            oracle sid now).1 = .unauthorizedRes "verification failed"
        ∧ authStatusOf (verifyPasskeyAuthentication development o secret headerOrigin resp
            cookies store oracle sid now).1 = 401
        ∧ sessionOf (verifyPasskeyAuthentication development o secret headerOrigin resp
            cookies store oracle sid now).1 = none) := by
  refine ⟨?_, ?_, ?_⟩
  · intro development o secret headerOrigin resp cookies store oracle sid now h
    have hrun : verifyPasskeyAuthentication development o secret headerOrigin resp cookies
        store oracle sid now = (.badRequest none, store) := by
      simp only [verifyPasskeyAuthentication, h]
      split <;> rfl
    rw [hrun]
    exact ⟨rfl, rfl⟩
  · intro development o secret headerOrigin resp cookies store oracle sid now st h1 h2 h3
    have hrun : verifyPasskeyAuthentication development o secret headerOrigin resp cookies
        store oracle sid now = (.unauthorizedRes "Passkey not found", store) := by
      simp only [verifyPasskeyAuthentication, h2, h3, if_neg h1]
    rw [hrun]
    exact ⟨rfl, rfl, rfl⟩
  · intro development o secret headerOrigin resp cookies store oracle sid now st pk m
      h1 h2 h3 h4
    have hrun : verifyPasskeyAuthentication development o secret headerOrigin resp cookies
        store oracle sid now = (.unauthorizedRes "verification failed", store) := by
      simp only [verifyPasskeyAuthentication, h2, h3, h4, if_neg h1]
    rw [hrun]
    exact ⟨rfl, rfl, rfl⟩

/-- Witness for C3: a missing cookie yields a 400 and no session; an
unknown credential id yields the 401 "Passkey not found" and no session;
an oracle that reports not-verified yields the 401 "verification failed"
and no session. -/
theorem c3_failure_statuses_witness :
    (authStatusOf (verifyPasskeyAuthentication false exO "s" none
        { id := "cred", counter := 9 } (fun _ => none) [exPk] counterCheckingOracle
        "sess" 0).1 = 400
      ∧ sessionOf (verifyPasskeyAuthentication false exO "s" none
          { id := "cred", counter := 9 } (fun _ => none) [exPk] counterCheckingOracle
          "sess" 0).1 = none)
    ∧ ((verifyPasskeyAuthentication false exO "s" none { id := "cred", counter := 9 } exJar
          [] counterCheckingOracle "sess" 0).1 = .unauthorizedRes "Passkey not found"
      ∧ authStatusOf (verifyPasskeyAuthentication false exO "s" none
          { id := "cred", counter := 9 } exJar [] counterCheckingOracle "sess" 0).1 = 401
      ∧ sessionOf (verifyPasskeyAuthentication false exO "s" none
          { id := "cred", counter := 9 } exJar [] counterCheckingOracle "sess" 0).1 = none)
    ∧ ((verifyPasskeyAuthentication false exO "s" none { id := "cred", counter := 9 } exJar
          [exPk] (fun _ _ _ _ _ => .ok false 0) "sess" 0).1
          = .unauthorizedRes "verification failed"
      ∧ authStatusOf (verifyPasskeyAuthentication false exO "s" none
          { id := "cred", counter := 9 } exJar [exPk] (fun _ _ _ _ _ => .ok false 0)
          "sess" 0).1 = 401
      ∧ sessionOf (verifyPasskeyAuthentication false exO "s" none
          { id := "cred", counter := 9 } exJar [exPk] (fun _ _ _ _ _ => .ok false 0)
          "sess" 0).1 = none) :=
  ⟨c3_failure_statuses.1 false exO "s" none { id := "cred", counter := 9 } (fun _ => none)
      [exPk] counterCheckingOracle "sess" 0 rfl,
   c3_failure_statuses.2.1 false exO "s" none { id := "cred", counter := 9 } exJar []
      counterCheckingOracle "sess" 0 exData (by decide) (by decide) rfl,
   c3_failure_statuses.2.2 false exO "s" none { id := "cred", counter := 9 } exJar [exPk]
      (fun _ _ _ _ _ => .ok false 0) "sess" 0 exData exPk 0 (by decide) (by decide)
      (by decide) rfl⟩

/-- C4, counterexample: a request with no session but an explicit
identifier in the body (`email = "a@b.c"`), against a store that holds a
credential, receives options with no allow-list at all — the handler
never reads the body's `email` — refuting the claim that an explicit
identifier yields an allow-list of that user's credentials. -/
theorem c4_allowlist_counterexample :
    (generatePasskeyAuthenticationOptions false exO "s" [exPk] none
        (some { email := some "a@b.c", callbackURL := none }) "c" 0).1.allowCredentials
      = none
    ∧ [exPk].filter (fun p => p.userId == "u1") ≠ [] := by
  constructor
  · rfl
  · decide

/-- C4, amended: the allow-list is built from the caller session alone —
it lists exactly the session user's stored credentials when there is a
session and that user has at least one credential, and is omitted
otherwise (no session, or an empty lookup; the body's `email` is
ignored). -/
theorem c4_allowlist_amended :
    (∀ (development : Bool) (o : PasskeyOptions) (secret : String) (store : List Passkey)
        (body : Option AuthOptsBody) (challenge : String) (now : Nat),
      (generatePasskeyAuthenticationOptions development o secret store none body challenge
          now).1.allowCredentials = none)
    ∧ (∀ (development : Bool) (o : PasskeyOptions) (secret : String) (store : List Passkey)
        (u : UserData) (body : Option AuthOptsBody) (challenge : String) (now : Nat),
      store.filter (fun p => p.userId == u.id) = [] →
      (generatePasskeyAuthenticationOptions development o secret store (some u) body
          challenge now).1.allowCredentials = none)
    ∧ (∀ (development : Bool) (o : PasskeyOptions) (secret : String) (store : List Passkey)
        (u : UserData) (body : Option AuthOptsBody) (challenge : String) (now : Nat),
      store.filter (fun p => p.userId == u.id) ≠ [] →
      (generatePasskeyAuthenticationOptions development o secret store (some u) body
          challenge now).1.allowCredentials
        = some ((store.filter (fun p => p.userId == u.id)).map toAllowCredential)) := by
  refine ⟨?_, ?_, ?_⟩
  · intro development o secret store body challenge now
    rfl
  · intro development o secret store u body challenge now h
    simp only [generatePasskeyAuthenticationOptions, h]
    rfl
  · intro development o secret store u body challenge now h
    have hcond : ¬ ((store.filter (fun p => p.userId == u.id)).isEmpty = true) := by
      simpa [List.isEmpty_iff] using h
    simp only [generatePasskeyAuthenticationOptions, if_neg hcond]

/-- Witness for the amended C4 at concrete inputs: no session yields no
allow-list; a session whose user has no stored credentials yields no
allow-list; a session whose user owns the stored credential yields the
allow-list of exactly that user's credentials. -/
theorem c4_allowlist_amended_witness :
    (generatePasskeyAuthenticationOptions false exO "s" [exPk] none none "c"
        0).1.allowCredentials = none
    ∧ (generatePasskeyAuthenticationOptions false exO "s" [exPk]
        (some { id := "u9", email := "e" }) none "c" 0).1.allowCredentials = none
    ∧ (generatePasskeyAuthenticationOptions false exO "s" [exPk]
        (some { id := "u1", email := "e" }) none "c" 0).1.allowCredentials
        = some (([exPk].filter (fun p => p.userId == "u1")).map toAllowCredential) :=
  ⟨c4_allowlist_amended.1 false exO "s" [exPk] none "c" 0,
   c4_allowlist_amended.2.1 false exO "s" [exPk] { id := "u9", email := "e" } none "c" 0
     (by decide),
   c4_allowlist_amended.2.2 false exO "s" [exPk] { id := "u1", email := "e" } none "c" 0
     (by decide)⟩

/-- C5, counterexample: a registration ceremony the oracle verifies
(returning registration info) but whose response carries no `transports`
field persists no credential — the handler's unguarded
`resp.response.transports.join(",")` throws first — refuting the claim
that every oracle-verified ceremony persists exactly one credential. -/
theorem c5_registration_persists_counterexample :
    verifyPasskeyRegistration false exO "s" none "u1" { transports := none } exJar []
        (fun _ _ _ _ => .ok true (some exRi)) "w" 0
      = (.badRequest (some "Registration failed"), [])
    ∧ (fun _ _ _ _ => RegVerification.ok true (some exRi))
        ({ transports := none } : RegCeremonyResponse) "c" "https://ex.com" "ex.com"
        = .ok true (some exRi) := by
  constructor
  · decide
  · rfl

/-- C5, amended: for every registration ceremony the oracle verifies and
whose response carries a `transports` field, exactly one credential is
appended to the store, and its counter equals the counter the oracle
extracted. -/
theorem c5_registration_persists_amended (development : Bool) (o : PasskeyOptions)
    (secret : String) (headerOrigin : Option String) (sessionUserId : String)
    (resp : RegCeremonyResponse) (cookies : String → Option SealedToken)
    (store : List Passkey)
    (oracle : RegCeremonyResponse → String → String → String → RegVerification)
    (freshUserID : String) (now : Nat) (st : WebAuthnCookieType) (ri : RegistrationInfo)
    (ts : List String)
    (h1 : jsOr (o.origin.getD "") (headerOrigin.getD "") ≠ "")
    (h2 : (cookies (resolveOptions development o).webAuthnChallengeCookie).bind
      (unsealChallenge secret now) = some st)
    (h3 : st.userData.id = sessionUserId)
    (h4 : oracle resp st.expectedChallenge (jsOr (o.origin.getD "") (headerOrigin.getD ""))
      o.rpID = .ok true (some ri))
    (h5 : resp.transports = some ts) :
    ∃ pk : Passkey,
      verifyPasskeyRegistration development o secret headerOrigin sessionUserId resp cookies
          store oracle freshUserID now
        = (.created pk, store ++ [pk])
      ∧ pk.counter = ri.counter := by
  have hsub : ¬ (st.userData.id ≠ sessionUserId) := fun hne => hne h3
  refine ⟨{ userId := st.userData.id, webauthnUserID := freshUserID, id := ri.credentialID,
            publicKey := base64Encode ri.credentialPublicKey, counter := ri.counter,
            deviceType := ri.credentialDeviceType,
            transports := some (String.intercalate "," ts),
            backedUp := ri.credentialBackedUp, createdAt := now }, ?_, rfl⟩
  simp only [verifyPasskeyRegistration, h2, h4, h5, if_neg h1, if_neg hsub]

/-- Witness for the amended C5: a verified ceremony with transports
`["usb"]` persists exactly one credential with the oracle's counter. -/
theorem c5_registration_persists_amended_witness :
    ∃ pk : Passkey,
      verifyPasskeyRegistration false exO "s" none "u1" { transports := some ["usb"] }
          exJar [] (fun _ _ _ _ => .ok true (some exRi)) "w" 0
        = (.created pk, [] ++ [pk])
      ∧ pk.counter = exRi.counter :=
  c5_registration_persists_amended false exO "s" none "u1" _ exJar []
    (fun _ _ _ _ => .ok true (some exRi)) "w" 0 exData exRi ["usb"]
    (by decide) (by decide) rfl rfl rfl

/-- C9: when the registration ceremony response omits the `transports`
field, the handler's unguarded read fails even when the oracle reports
verified; the caught error produces the 400 "Registration failed"
response and the store is unchanged — no credential is created. -/
theorem c9_missing_transports_400 (development : Bool) (o : PasskeyOptions)
    (secret : String) (headerOrigin : Option String) (sessionUserId : String)
    (resp : RegCeremonyResponse) (cookies : String → Option SealedToken)
    (store : List Passkey)
    (oracle : RegCeremonyResponse → String → String → String → RegVerification)
    (freshUserID : String) (now : Nat) (st : WebAuthnCookieType) (ri : RegistrationInfo)
    (h1 : jsOr (o.origin.getD "") (headerOrigin.getD "") ≠ "")
    (h2 : (cookies (resolveOptions development o).webAuthnChallengeCookie).bind
      (unsealChallenge secret now) = some st)
    (h3 : st.userData.id = sessionUserId)
    (h4 : oracle resp st.expectedChallenge (jsOr (o.origin.getD "") (headerOrigin.getD ""))
      o.rpID = .ok true (some ri))
    (h5 : resp.transports = none) :
    verifyPasskeyRegistration development o secret headerOrigin sessionUserId resp cookies
        store oracle freshUserID now
      = (.badRequest (some "Registration failed"), store) := by
  have hsub : ¬ (st.userData.id ≠ sessionUserId) := fun hne => hne h3
  simp only [verifyPasskeyRegistration, h2, h4, h5, if_neg h1, if_neg hsub]

/-- Witness for C9: a verified ceremony whose response omits transports
gets a 400 and leaves the one-credential store unchanged. -/
theorem c9_missing_transports_400_witness :
    verifyPasskeyRegistration false exO "s" none "u1" { transports := none } exJar [exPk]
        (fun _ _ _ _ => .ok true (some exRi)) "w" 0
      = (.badRequest (some "Registration failed"), [exPk]) :=
  c9_missing_transports_400 false exO "s" none "u1" _ exJar [exPk]
    (fun _ _ _ _ => .ok true (some exRi)) "w" 0 exData exRi
    (by decide) (by decide) rfl rfl rfl

/-- C8: both option-issuing endpoints seal their challenge state into a
cookie of the same name under the same secret and the same payload type,
and the verify-side read — `cookies(cookieName)` fed to `unseal` with
the same name and secret — accepts, within the TTL, a token issued by
either ceremony: neither verify step checks which ceremony issued it. -/
theorem c8_shared_cookie_channel :
    (∀ (development : Bool) (o : PasskeyOptions) (secret : String) (su : UserData)
        (store : List Passkey) (fu ch : String) (now : Nat) (s : Option UserData)
        (body : Option AuthOptsBody) (ch2 : String) (now2 : Nat),
      (generatePasskeyRegistrationOptions development o secret su store fu ch now).2.1
        = (generatePasskeyAuthenticationOptions development o secret store s body ch2
            now2).2.1)
    ∧ (∀ (development : Bool) (o : PasskeyOptions) (secret : String) (su : UserData)
        (store : List Passkey) (fu ch : String) (t now : Nat),
      now ≤ t + webAuthnChallengeCookieExpiration →
      (singletonJar (generatePasskeyRegistrationOptions development o secret su store fu
            ch t).2.1
          (generatePasskeyRegistrationOptions development o secret su store fu ch t).2.2
          ((resolveOptions development o).webAuthnChallengeCookie)).bind
          (unsealChallenge secret now)
        = some (generatePasskeyRegistrationOptions development o secret su store fu ch
            t).2.2.payload)
    ∧ (∀ (development : Bool) (o : PasskeyOptions) (secret : String)
        (store : List Passkey) (s : Option UserData) (body : Option AuthOptsBody)
        (ch : String) (t now : Nat),
      now ≤ t + webAuthnChallengeCookieExpiration →
      (singletonJar (generatePasskeyAuthenticationOptions development o secret store s body
            ch t).2.1
          (generatePasskeyAuthenticationOptions development o secret store s body ch t).2.2
          ((resolveOptions development o).webAuthnChallengeCookie)).bind
          (unsealChallenge secret now)
        = some (generatePasskeyAuthenticationOptions development o secret store s body ch
            t).2.2.payload) := by
  refine ⟨?_, ?_, ?_⟩
  · intro development o secret su store fu ch now s body ch2 now2
    rfl
  · intro development o secret su store fu ch t now h
    have htok : (generatePasskeyRegistrationOptions development o secret su store fu ch
        t).2.2
        = sealChallenge secret t
            { expectedChallenge := ch
              userData := { id := su.id, email := jsOr su.email su.id }
              callbackURL := none } := rfl
    have hname : (generatePasskeyRegistrationOptions development o secret su store fu ch
        t).2.1
        = (resolveOptions development o).webAuthnChallengeCookie := rfl
    rw [hname, htok]
    simp only [singletonJar, if_pos rfl, Option.bind_some]
    simp [unsealChallenge, sealChallenge, h]
  · intro development o secret store s body ch t now h
    have htok : (generatePasskeyAuthenticationOptions development o secret store s body ch
        t).2.2
        = sealChallenge secret t
            { expectedChallenge := ch
              userData :=
                { email :=
                    match s with
                    | some u => jsOr u.email u.id
                    | none => ""
                  id :=
                    match s with
                    | some u => u.id
                    | none => "" }
              callbackURL := body.bind (fun b => b.callbackURL) } := rfl
    have hname : (generatePasskeyAuthenticationOptions development o secret store s body ch
        t).2.1
        = (resolveOptions development o).webAuthnChallengeCookie := rfl
    rw [hname, htok]
    simp only [singletonJar, if_pos rfl, Option.bind_some]
    simp [unsealChallenge, sealChallenge, h]

/-- Witness for C8 at concrete inputs: the two issued cookie names
coincide, and each endpoint's issued token unseals on the verify side
within the TTL to the state it was sealed from. -/
theorem c8_shared_cookie_channel_witness :
    (generatePasskeyRegistrationOptions false exO "s" { id := "u1", email := "e" } [] "w"
        "c" 0).2.1
      = (generatePasskeyAuthenticationOptions false exO "s" [] none none "c" 0).2.1
    ∧ (singletonJar (generatePasskeyRegistrationOptions false exO "s"
          { id := "u1", email := "e" } [] "w" "c" 0).2.1
        (generatePasskeyRegistrationOptions false exO "s" { id := "u1", email := "e" } []
          "w" "c" 0).2.2
        ((resolveOptions false exO).webAuthnChallengeCookie)).bind (unsealChallenge "s" 10)
      = some (generatePasskeyRegistrationOptions false exO "s" { id := "u1", email := "e" }
          [] "w" "c" 0).2.2.payload
    ∧ (singletonJar (generatePasskeyAuthenticationOptions false exO "s" [] none none "c"
          0).2.1
        (generatePasskeyAuthenticationOptions false exO "s" [] none none "c" 0).2.2
        ((resolveOptions false exO).webAuthnChallengeCookie)).bind (unsealChallenge "s" 10)
      = some (generatePasskeyAuthenticationOptions false exO "s" [] none none "c"
          0).2.2.payload :=
  ⟨c8_shared_cookie_channel.1 false exO "s" { id := "u1", email := "e" } [] "w" "c" 0 none
      none "c" 0,
   c8_shared_cookie_channel.2.1 false exO "s" { id := "u1", email := "e" } [] "w" "c" 0 10
      (by decide),
   c8_shared_cookie_channel.2.2 false exO "s" [] none none "c" 0 10 (by decide)⟩

/-- C10: under the development override the two relying-party ids
disagree — issuing registration options uses the resolved rpID
"localhost" while verify-registration hands the verifier the raw
configured rpID. An oracle that verifies exactly against the rpID the
options were issued for ("localhost") makes the verify step fail, while
an oracle pinned to the raw configured rpID ("ex.com") succeeds, so the
verify step demonstrably used "ex.com" ≠ "localhost". -/
theorem c10_dev_rpid_mismatch :
    (generatePasskeyRegistrationOptions true exO "s" { id := "u1", email := "e" } [] "w"
        "c" 0).1.rpID = "localhost"
    ∧ regStatusOf (verifyPasskeyRegistration true exO "s" none "u1"
        { transports := some ["usb"] } exJar []
        (fun _ _ _ rp => if rp == "localhost" then .ok true (some exRi) else .err)
        "w" 0).1 = 400
    ∧ (verifyPasskeyRegistration true exO "s" none "u1" { transports := some ["usb"] }
        exJar [] (fun _ _ _ rp => if rp == "localhost" then .ok true (some exRi) else .err)
        "w" 0).2 = []
    ∧ regStatusOf (verifyPasskeyRegistration true exO "s" none "u1"
        { transports := some ["usb"] } exJar []
        (fun _ _ _ rp => if rp == "ex.com" then .ok true (some exRi) else .err)
        "w" 0).1 = 200 := by
  refine ⟨rfl, by decide, by decide, by decide⟩

end BetterAuthPasskey
